import Mathlib

/-!
Verification development for the SocketSphere presence / message fan-out
subsystem.  The definitions below are a shallow embedding of the TypeScript
sources:

  * `src/socketsphere/src/redis/redis.service.ts`   (shared-state store layer)
  * `src/socketsphere/src/message/message.service.ts` (durable message store)
  * `src/socketsphere/src/chat/chat.gateway.ts`     (connection manager /
    protocol handlers; the file holds a primary gateway and a later variant
    gateway — both are embedded where a claim refers to both)

Modelling conventions:
  * Redis hashes (`online:users`) and the JS `Map`s of the gateway are
    modelled as association lists with upsert / delete / lookup operations
    (`alSet`, `alDel`, `alGet`); both Redis `hSet` and JS `Map.set` update an
    existing key in place and append a new key at the end, which `alSet`
    mirrors.
  * The Redis list `messages:recent` is a Lean `List` with head = oldest
    (Redis `rPush` appends at the tail).  `lRange(key, -n, -1)` and
    `lTrim(key, -n, -1)` keep the last `n` elements, except that `-0 = 0`
    makes the whole list survive when `n = 0`; `lastN` reproduces exactly
    that semantics.
  * Fallible external calls (Mongo via `userService` / `messageService`,
    Redis client errors) are modelled by explicit Boolean failure
    parameters; a service method whose `catch` swallows the error and
    returns a default is modelled by returning that default on the failure
    flag.
  * `client.emit` / `this.server.emit` become an explicit trace of `Emit`
    values (`toClient` vs `broadcast`), in source order.
  * Durable-store side effects that no claim observes (user `updateStatus`
    writes) are not traced.
-/

/-- Association-list upsert: models both Redis `hSet` and JS `Map.set`
(update in place if the key exists, else append). -/
def alSet {β : Type} (h : List (String × β)) (k : String) (v : β) :
    List (String × β) :=
  if h.any (fun p => p.1 == k) then
    h.map (fun p => if p.1 == k then (k, v) else p)
  else
    h ++ [(k, v)]

/-- Association-list delete: models Redis `hDel` / `del` and JS
`Map.delete` (a no-op when the key is absent). -/
def alDel {β : Type} (h : List (String × β)) (k : String) :
    List (String × β) :=
  h.filter (fun p => !(p.1 == k))

/-- Association-list lookup: models Redis `hGet` / `get` and JS `Map.get`. -/
def alGet {β : Type} (h : List (String × β)) (k : String) : Option β :=
  (h.find? (fun p => p.1 == k)).map (fun p => p.2)

/-- Number of entries: models Redis `hLen` and JS `Map.size`. -/
def hLen {β : Type} (h : List (String × β)) : Nat := h.length

/-- Redis `hExists`. -/
def hExists {β : Type} (h : List (String × β)) (k : String) : Bool :=
  h.any (fun p => p.1 == k)

/-- Last `n` elements of a list, with the Redis negative-index quirk:
`lRange(key, -n, -1)` / `lTrim(key, -n, -1)` address the suffix of length
`n`, but for `n = 0` the start index `-0 = 0` denotes the whole list. -/
def lastN {α : Type} (n : Nat) (l : List α) : List α :=
  if n = 0 then l else l.drop (l.length - n)

/-- User info object built by `handleJoin` and stored in the local
`connectedUsers` map and in the Redis session blob. -/
structure UserInfo where
  userId : String
  username : String
  mongoId : Option String
  socketId : String
  connectedAt : Nat
deriving DecidableEq

/-- A Redis session entry: the stored blob plus the TTL (seconds) that the
`setEx` write carried. -/
structure Session where
  data : UserInfo
  ttl : Nat
deriving DecidableEq

/-- A chat message document as persisted by `messageService.createMessage`
(WebSocket path) and broadcast by the primary gateway: `docId` is the Mongo
`_id` (present once persisted), `userId` is the client-supplied custom id
(`customUserId` in the schema). -/
structure ChatMsg where
  docId : Option String
  userId : String
  username : String
  text : String
  timestamp : Nat
deriving DecidableEq

/-- Client-visible identifier used by the variant gateway's
`handleSendMessage`: the persisted Mongo id, or the provisional
`temp_<Date.now()>` marker when persistence did not happen. -/
inductive MsgId where
  | persisted (id : String)
  | provisional (ts : Nat)
deriving DecidableEq

/-- The wire message the variant gateway broadcasts as `newMessage`. -/
structure VMsg where
  vid : MsgId
  userId : String
  username : String
  text : String
  timestamp : Nat
deriving DecidableEq

/-- Outbound socket events emitted by the gateway handlers. -/
inductive OutEvent where
  | connected (socketId : String)
  | onlineCountEv (n : Nat)
  | userJoined (userId : String) (username : String)
  | joinSuccess (user : UserInfo)
  | userLeft (userId : String) (username : Option String)
  | newMessage (m : ChatMsg)
  | newMessageV (m : VMsg)
  | recentMessages (msgs : List ChatMsg)
  | errorEv (msg : String)
deriving DecidableEq

/-- An emission: `client.emit` (to one connection) vs `this.server.emit`
(broadcast to all connections). -/
inductive Emit where
  | toClient (cid : String) (ev : OutEvent)
  | broadcast (ev : OutEvent)
deriving DecidableEq

/-- The cluster-shared Redis state used by the gateway: the
`online:users` hash, the `user:<id>` session keys, and the
`messages:recent` list (head = oldest). -/
structure RedisState where
  online : List (String × String)
  sessions : List (String × Session)
  cache : List ChatMsg
deriving DecidableEq

/-- Whole-system state for one gateway process: the three local JS maps of
`ChatGateway`, the Redis state, and the durable message store (the Mongo
`messages` collection, in insertion order). -/
structure GWState where
  userSockets : List (String × String)
  socketUsers : List (String × String)
  connectedUsers : List (String × UserInfo)
  redis : RedisState
  db : List ChatMsg
deriving DecidableEq

/-- Result of one handler invocation: the successor state, the emitted
events in order, and the handler's `success` flag. -/
structure GWResult where
  state : GWState
  emits : List Emit
  success : Bool
deriving DecidableEq

/-! ### Redis service layer (`redis.service.ts`) -/

/-- The default of the `ttl` parameter of
`setUserSession(userId, data, ttl = 3600)`: one hour, in seconds. -/
def setUserSessionDefaultTtl : Nat := 3600

/-- `setUserSession`: `setEx('user:'+userId, ttl, JSON.stringify(data))` —
an upsert that records the TTL carried by the write. -/
def setUserSession (sessions : List (String × Session)) (userId : String)
    (data : UserInfo) (ttl : Nat) : List (String × Session) :=
  alSet sessions userId { data := data, ttl := ttl }

/-- `deleteUserSession`: `del('user:'+userId)`. -/
def deleteUserSession (sessions : List (String × Session))
    (userId : String) : List (String × Session) :=
  alDel sessions userId

/-- `getUserSession`: `get('user:'+userId)`, parsed; `null` when absent. -/
def getUserSession (sessions : List (String × Session))
    (userId : String) : Option UserInfo :=
  (alGet sessions userId).map (fun s => s.data)

/-- `refreshUserSession(userId, ttl = 3600)`: `expire('user:'+userId, ttl)`
— resets the TTL of an existing session key, no-op when absent.  (No call
site exists anywhere in the repository.) -/
def refreshUserSession (sessions : List (String × Session))
    (userId : String) (ttl : Nat) : List (String × Session) :=
  sessions.map (fun p => if p.1 == userId then (p.1, { p.2 with ttl := ttl }) else p)

/-- `addOnlineUser`: `hSet('online:users', userId, socketId)`. -/
def addOnlineUser (online : List (String × String)) (userId socketId : String) :
    List (String × String) :=
  alSet online userId socketId

/-- `removeOnlineUser`: `hDel('online:users', userId)`. -/
def removeOnlineUser (online : List (String × String)) (userId : String) :
    List (String × String) :=
  alDel online userId

/-- `getOnlineCount`: `hLen('online:users')`; `0` on a store error. -/
def getOnlineCount (err : Bool) (online : List (String × String)) : Nat :=
  if err then 0 else hLen online

/-- `isUserOnline`: the source awaits `hExists('online:users', userId)` but
discards the result and returns `true`; the `catch` branch returns
`false`. -/
def isUserOnline (err : Bool) (online : List (String × String))
    (userId : String) : Bool :=
  if err then false
  else
    let _checked := hExists online userId
    true

/-- `addMessageToCache(message, maxLength = 50)`:
`rPush('messages:recent', msg)` then `lTrim('messages:recent', -maxLength, -1)`. -/
def addMessageToCache {α : Type} (message : α) (maxLength : Nat)
    (cache : List α) : List α :=
  lastN maxLength (cache ++ [message])

/-- `getCachedMessages(limit = 50)`: `lRange('messages:recent', -limit, -1)`;
the `catch` branch returns `[]`. -/
def getCachedMessages {α : Type} (err : Bool) (limit : Nat)
    (cache : List α) : List α :=
  if err then [] else lastN limit cache

/-- `cacheRecentMessages(messages, limit = 50)`: `del('messages:recent')`
then `rPush` of `messages.slice(-limit)` in order. -/
def cacheRecentMessages {α : Type} (messages : List α) (limit : Nat) :
    List α :=
  lastN limit messages

/-! ### Message service layer (`message.service.ts`) -/

/-- Insertion step of a stable sort by `timestamp` descending (models
Mongo `sort({ timestamp: -1 })`). -/
def insertDesc (m : ChatMsg) : List ChatMsg → List ChatMsg
  | [] => [m]
  | h :: t => if h.timestamp ≤ m.timestamp then m :: h :: t else h :: insertDesc m t

/-- Stable sort by `timestamp` descending. -/
def sortDescByTs : List ChatMsg → List ChatMsg
  | [] => []
  | h :: t => insertDesc h (sortDescByTs t)

/-- `messageService.getRecentMessages(limit = 50)`:
`find().sort({timestamp:-1}).limit(limit)` — newest first, truncated to
`limit` (Mongo `limit(0)` means unlimited). -/
def msGetRecentMessages (limit : Nat) (db : List ChatMsg) : List ChatMsg :=
  if limit = 0 then sortDescByTs db else (sortDescByTs db).take limit

/-! ### Gateway handlers (`chat.gateway.ts`, primary gateway) -/

/-- `handleConnection(client)`: emits `connected` (with the socket id) and
`onlineCount` to the connecting client only; the count is
`this.userSockets.size`, the local process map. -/
def handleConnection (st : GWState) (cid : String) : GWResult :=
  { state := st,
    emits := [Emit.toClient cid (OutEvent.connected cid),
              Emit.toClient cid (OutEvent.onlineCountEv (hLen st.userSockets))],
    success := true }

/-- `handleJoin(payload, client)`: validates the payload, records the two
local socket maps, find-or-creates the durable user (best-effort: `dbFail`
models the inner `catch` that logs and continues with `dbUser = null`;
`dbUserId` is the `_id` of the found/created record on success), stores
`userInfo` locally and in Redis (`addOnlineUser`, `setUserSession` with an
explicit 7200-second TTL), then emits `userJoined` (broadcast),
`joinSuccess` (to the client) and the refreshed `onlineCount` (broadcast),
in that order. -/
def handleJoin (st : GWState) (cid userId username : String)
    (dbFail : Bool) (dbUserId : String) (now : Nat) : GWResult :=
  if userId == "" || username == "" then
    { state := st,
      emits := [Emit.toClient cid (OutEvent.errorEv "userId and username are required")],
      success := false }
  else
    let st1 : GWState :=
      { st with userSockets := alSet st.userSockets userId cid,
                socketUsers := alSet st.socketUsers cid userId }
    let dbUser : Option String := if dbFail then none else some dbUserId
    let userInfo : UserInfo :=
      { userId := userId, username := username, mongoId := dbUser,
        socketId := cid, connectedAt := now }
    let st2 : GWState :=
      { st1 with connectedUsers := alSet st1.connectedUsers userId userInfo }
    let st3 : GWState :=
      { st2 with redis :=
          { st2.redis with
              online := addOnlineUser st2.redis.online userId cid,
              sessions := setUserSession st2.redis.sessions userId userInfo 7200 } }
    { state := st3,
      emits := [Emit.broadcast (OutEvent.userJoined userId username),
                Emit.toClient cid (OutEvent.joinSuccess userInfo),
                Emit.broadcast (OutEvent.onlineCountEv (getOnlineCount false st3.redis.online))],
      success := true }

/-- `handleSendMessage(payload, client)` (primary gateway): validates the
payload, resolves `userData` from the local `connectedUsers` map with a
Redis-session fallback (caching the session hit back into the local map),
persists via `messageService.createMessage` — `persistFail` models a throw
there, which lands in the outer `catch` that emits `error` to the sender —
and on success appends the saved message to the Redis cache and broadcasts
it as `newMessage`. -/
def handleSendMessage (st : GWState) (cid userId text : String)
    (persistFail : Bool) (newDocId : String) (now : Nat) : GWResult :=
  if userId == "" || text == "" then
    { state := st,
      emits := [Emit.toClient cid (OutEvent.errorEv "userId and text are required")],
      success := false }
  else
    let fromLocal : Option UserInfo := alGet st.connectedUsers userId
    let userData? : Option UserInfo :=
      match fromLocal with
      | some u => some u
      | none => getUserSession st.redis.sessions userId
    match userData? with
    | none =>
      { state := st,
        emits := [Emit.toClient cid (OutEvent.errorEv "User not found. Please join first.")],
        success := false }
    | some userData =>
      let st1 : GWState :=
        match fromLocal with
        | some _ => st
        | none => { st with connectedUsers := alSet st.connectedUsers userId userData }
      if persistFail then
        { state := st1,
          emits := [Emit.toClient cid (OutEvent.errorEv "Failed to send message")],
          success := false }
      else
        let savedMessage : ChatMsg :=
          { docId := some newDocId, userId := userId,
            username := userData.username, text := text.trim, timestamp := now }
        let st2 : GWState :=
          { st1 with
              db := st1.db ++ [savedMessage],
              redis := { st1.redis with
                cache := addMessageToCache savedMessage 50 st1.redis.cache } }
        { state := st2,
          emits := [Emit.broadcast (OutEvent.newMessage savedMessage)],
          success := true }

/-- `handleGetRecentMessages(payload, client)` (primary gateway):
`limit = payload?.limit || 50` (absent or `0` falls back to `50`);
reads the Redis cache first (`cacheErr` models a store error there, whose
`catch` yields `[]`), falls back to the durable store when the cached list
is empty, best-effort repopulating the cache when the fetch is non-empty,
and emits `recentMessages` to the requesting client only. -/
def handleGetRecentMessages (cacheErr : Bool) (st : GWState) (cid : String)
    (limitOpt : Option Nat) : GWResult :=
  let limit : Nat :=
    match limitOpt with
    | none => 50
    | some n => if n = 0 then 50 else n
  let cached := getCachedMessages cacheErr limit st.redis.cache
  if cached.isEmpty then
    let msgs := msGetRecentMessages limit st.db
    let st1 : GWState :=
      if msgs.length > 0 then
        { st with redis := { st.redis with cache := cacheRecentMessages msgs limit } }
      else st
    { state := st1,
      emits := [Emit.toClient cid (OutEvent.recentMessages msgs)],
      success := true }
  else
    { state := st,
      emits := [Emit.toClient cid (OutEvent.recentMessages cached)],
      success := true }

/-- `handleLeave(payload, client)` (primary gateway): deletes the three
local map entries (JS `Map.delete` of an absent key is a no-op), removes
the Redis presence entry and session, broadcasts `userLeft` (username from
the `connectedUsers` entry captured before deletion) and the refreshed
`onlineCount`, and returns success. -/
def handleLeave (st : GWState) (cid userId : String) : GWResult :=
  let userData := alGet st.connectedUsers userId
  let st1 : GWState :=
    { st with
        userSockets := alDel st.userSockets userId,
        socketUsers := alDel st.socketUsers cid,
        connectedUsers := alDel st.connectedUsers userId,
        redis := { st.redis with
          online := removeOnlineUser st.redis.online userId,
          sessions := deleteUserSession st.redis.sessions userId } }
  { state := st1,
    emits := [Emit.broadcast (OutEvent.userLeft userId (userData.map (fun u => u.username))),
              Emit.broadcast (OutEvent.onlineCountEv (getOnlineCount false st1.redis.online))],
    success := true }

/-- `handleDisconnect(client)` (primary gateway): reverse-looks-up the
userId from `socketUsers`; when absent nothing happens, otherwise it
performs the same local-map deletions, Redis removals and `userLeft` /
`onlineCount` broadcasts as the leave handler. -/
def handleDisconnect (st : GWState) (cid : String) : GWResult :=
  match alGet st.socketUsers cid with
  | none => { state := st, emits := [], success := true }
  | some disconnectedUserId =>
    let userData := alGet st.connectedUsers disconnectedUserId
    let st1 : GWState :=
      { st with
          userSockets := alDel st.userSockets disconnectedUserId,
          socketUsers := alDel st.socketUsers cid,
          connectedUsers := alDel st.connectedUsers disconnectedUserId,
          redis := { st.redis with
            online := removeOnlineUser st.redis.online disconnectedUserId,
            sessions := deleteUserSession st.redis.sessions disconnectedUserId } }
    { state := st1,
      emits := [Emit.broadcast (OutEvent.userLeft disconnectedUserId
                  (userData.map (fun u => u.username))),
                Emit.broadcast (OutEvent.onlineCountEv (getOnlineCount false st1.redis.online))],
      success := true }

/-! ### Variant gateway (second `ChatGateway` in `chat.gateway.ts`) -/

/-- `handleSendMessage` of the variant gateway: requires the user in the
local `connectedUsers` map; attempts persistence only when the user has a
Mongo `_id`, and the inner `catch` swallows a persistence failure, so the
broadcast always happens — with `_id` set to the persisted id or to the
provisional `temp_<Date.now()>` marker. -/
def handleSendMessageVariant (st : GWState) (cid userId text : String)
    (persistFail : Bool) (newDocId : String) (now : Nat) : GWResult :=
  if userId == "" || text == "" then
    { state := st,
      emits := [Emit.toClient cid (OutEvent.errorEv "userId and text are required")],
      success := false }
  else
    match alGet st.connectedUsers userId with
    | none =>
      { state := st,
        emits := [Emit.toClient cid (OutEvent.errorEv "You must join the chat first")],
        success := false }
    | some userData =>
      let saved? : Option String :=
        match userData.mongoId with
        | none => none
        | some _ => if persistFail then none else some newDocId
      let messageToSend : VMsg :=
        { vid := match saved? with
                 | some i => MsgId.persisted i
                 | none => MsgId.provisional now,
          userId := userId, username := userData.username,
          text := text, timestamp := now }
      { state := st,
        emits := [Emit.broadcast (OutEvent.newMessageV messageToSend)],
        success := true }

/-! ### Concrete fixture states used by counterexamples and witnesses -/

/-- Three messages with strictly increasing timestamps (oldest first). -/
def msgA : ChatMsg :=
  { docId := some "a", userId := "u1", username := "ann", text := "A", timestamp := 1 }

/-- Second message of the fixture trio. -/
def msgB : ChatMsg :=
  { docId := some "b", userId := "u1", username := "ann", text := "B", timestamp := 2 }

/-- Third (most recent) message of the fixture trio. -/
def msgC : ChatMsg :=
  { docId := some "c", userId := "u1", username := "ann", text := "C", timestamp := 3 }

/-- A freshly started process: empty local maps, empty store. -/
def emptySt : GWState :=
  { userSockets := [], socketUsers := [], connectedUsers := [],
    redis := { online := [], sessions := [], cache := [] }, db := [] }

/-- State whose message cache already holds the fixture trio (cache-hit
path). -/
def stCacheHit : GWState :=
  { emptySt with redis := { emptySt.redis with cache := [msgA, msgB, msgC] } }

/-- State with a cold cache and the fixture trio in the durable store
(fallback path). -/
def stFallback : GWState :=
  { emptySt with db := [msgA, msgB, msgC] }

/-- State where the Presence Store knows one online user but the local
`userSockets` map of this process is empty. -/
def stPresenceOnly : GWState :=
  { emptySt with redis := { emptySt.redis with online := [("u1", "s1")] } }

/-- State reached from the empty state by a successful join of user `u1`
(username `ann`, durable id `m1`) on socket `s1`. -/
def stJoined : GWState :=
  (handleJoin emptySt "s1" "u1" "ann" false "m1" 0).state

/-- State with one message in the durable store and a cold cache. -/
def stDbOnly : GWState :=
  { emptySt with db := [msgA] }

/-! ### Supporting lemmas -/

theorem filter_idem {α : Type} (p : α → Bool) (l : List α) :
    (l.filter p).filter p = l.filter p := by
  induction l with
  | nil => rfl
  | cons a t ih => cases h : p a <;> simp [List.filter_cons, h, ih]

theorem alDel_idem {β : Type} (h : List (String × β)) (k : String) :
    alDel (alDel h k) k = alDel h k := by
  unfold alDel; exact filter_idem _ _

theorem alGet_alDel {β : Type} (h : List (String × β)) (k : String) :
    alGet (alDel h k) k = none := by
  induction h with
  | nil => rfl
  | cons a t ih =>
    cases hak : (a.1 == k) with
    | true => simpa [alDel, List.filter_cons, hak] using ih
    | false =>
      simp only [alDel, List.filter_cons, hak] at ih ⊢
      simp only [Bool.not_false, if_pos]
      simp only [alGet, List.find?_cons, hak] at ih ⊢
      exact ih

theorem alGet_map_upsert {β : Type} (k : String) (v : β)
    (h : List (String × β)) :
    h.any (fun p => p.1 == k) = true →
    alGet (h.map (fun p => if p.1 == k then (k, v) else p)) k = some v := by
  induction h with
  | nil => intro hany; simp at hany
  | cons a t ih =>
    intro hany
    cases hak : (a.1 == k) with
    | false =>
      have hany' : t.any (fun p => p.1 == k) = true := by
        simpa [List.any_cons, hak] using hany
      have hx : (if (a.1 == k) = true then (k, v) else a) = a := if_neg (by simp [hak])
      rw [List.map_cons]
      show alGet ((if (a.1 == k) = true then (k, v) else a) ::
        t.map (fun p => if p.1 == k then (k, v) else p)) k = some v
      rw [hx]
      simp only [alGet, List.find?_cons, hak] at ih ⊢
      exact ih hany'
    | true =>
      have hx : (if (a.1 == k) = true then (k, v) else a) = (k, v) := if_pos hak
      rw [List.map_cons]
      show alGet ((if (a.1 == k) = true then (k, v) else a) ::
        t.map (fun p => if p.1 == k then (k, v) else p)) k = some v
      rw [hx]
      simp [alGet, List.find?_cons]

theorem alGet_append_missing {β : Type} (k : String) (v : β)
    (h : List (String × β)) :
    h.any (fun p => p.1 == k) = false →
    alGet (h ++ [(k, v)]) k = some v := by
  induction h with
  | nil => intro _; simp [alGet, List.find?_cons]
  | cons a t ih =>
    intro hany
    have hak : (a.1 == k) = false := by
      cases hh : (a.1 == k) <;> simp [List.any_cons, hh] at hany ⊢
    have hany' : t.any (fun p => p.1 == k) = false := by
      simpa [List.any_cons, hak] using hany
    simpa [alGet, List.find?_cons, hak] using ih hany'

theorem alGet_alSet_self {β : Type} (h : List (String × β)) (k : String) (v : β) :
    alGet (alSet h k v) k = some v := by
  unfold alSet
  cases hany : h.any (fun p => p.1 == k) with
  | true => simpa [hany] using alGet_map_upsert k v h hany
  | false => simpa [hany] using alGet_append_missing k v h hany

theorem drop_append_len {α : Type} (p s : List α) (n : Nat) :
    (p ++ s).drop (p.length + n) = s.drop n := by
  induction p with
  | nil => simp
  | cons a t ih =>
    have harr : (a :: t).length + n = (t.length + n) + 1 := by
      simp [List.length_cons]; omega
    rw [harr, List.cons_append, List.drop_succ_cons, ih]

theorem lastN_of_le {α : Type} (n : Nat) (l : List α) (h : l.length ≤ n) :
    lastN n l = l := by
  unfold lastN
  split
  · rfl
  · rw [Nat.sub_eq_zero_of_le h, List.drop_zero]

theorem length_lastN {α : Type} (n : Nat) (l : List α) (hn : n ≠ 0) :
    (lastN n l).length = min n l.length := by
  unfold lastN
  rw [if_neg hn, List.length_drop]
  omega

theorem lastN_append_lastN {α : Type} (K : Nat) (hK : K ≠ 0) (x y : List α) :
    lastN K (lastN K x ++ y) = lastN K (x ++ y) := by
  by_cases hx : x.length ≤ K
  · rw [lastN_of_le K x hx]
  · have hd : (x.drop (x.length - K)).length = K := by
      rw [List.length_drop]; omega
    have hxl : lastN K x = x.drop (x.length - K) := by
      unfold lastN; rw [if_neg hK]
    rw [hxl]
    unfold lastN
    rw [if_neg hK, if_neg hK]
    have hcount1 : (x.drop (x.length - K) ++ y).length - K = y.length := by
      rw [List.length_append, hd]; omega
    rw [hcount1]
    have hsplit : x ++ y = x.take (x.length - K) ++ (x.drop (x.length - K) ++ y) := by
      rw [← List.append_assoc, List.take_append_drop]
    rw [hsplit]
    have htk : (x.take (x.length - K)).length = x.length - K := by
      rw [List.length_take]; omega
    have hcount2 :
        (x.take (x.length - K) ++ (x.drop (x.length - K) ++ y)).length - K
          = (x.take (x.length - K)).length + y.length := by
      rw [List.length_append, List.length_append, htk, hd]; omega
    rw [hcount2, drop_append_len]

theorem foldl_addMessageToCache {α : Type} (K : Nat) (hK : K ≠ 0)
    (msgs : List α) :
    ∀ c0 : List α, c0.length ≤ K →
      msgs.foldl (fun c m => addMessageToCache m K c) c0 = lastN K (c0 ++ msgs) := by
  induction msgs with
  | nil =>
    intro c0 h0
    simp [lastN_of_le K c0 h0]
  | cons m ms ih =>
    intro c0 h0
    rw [List.foldl_cons]
    have hstep : addMessageToCache m K c0 = lastN K (c0 ++ [m]) := rfl
    have hlen : (lastN K (c0 ++ [m])).length ≤ K := by
      rw [length_lastN K _ hK]; omega
    rw [hstep, ih (lastN K (c0 ++ [m])) hlen, lastN_append_lastN K hK,
        List.append_assoc, List.singleton_append]

theorem lastN_append_right {α : Type} (K : Nat) (hK : K ≠ 0) (p s : List α)
    (h : K ≤ s.length) :
    lastN K (p ++ s) = s.drop (s.length - K) := by
  unfold lastN
  rw [if_neg hK, List.length_append]
  have hc : p.length + s.length - K = p.length + (s.length - K) := by omega
  rw [hc, drop_append_len]

theorem insertDesc_of_forall_lt (m : ChatMsg) (l : List ChatMsg)
    (h : ∀ b ∈ l, m.timestamp < b.timestamp) :
    insertDesc m l = l ++ [m] := by
  induction l with
  | nil => rfl
  | cons a t ih =>
    have ha : m.timestamp < a.timestamp := h a (List.mem_cons_self a t)
    have hcond : ¬ a.timestamp ≤ m.timestamp := by omega
    simp only [insertDesc, if_neg hcond, List.cons_append]
    rw [ih (fun b hb => h b (List.mem_cons_of_mem a hb))]

theorem sortDescByTs_of_chron (l : List ChatMsg)
    (h : List.Pairwise (fun a b => a.timestamp < b.timestamp) l) :
    sortDescByTs l = l.reverse := by
  induction l with
  | nil => rfl
  | cons a t ih =>
    rw [List.pairwise_cons] at h
    simp only [sortDescByTs]
    rw [ih h.2]
    rw [insertDesc_of_forall_lt a t.reverse (fun b hb => h.1 b (List.mem_reverse.mp hb))]
    rw [List.reverse_cons]

/-! ### Claim theorems -/

/-- C10: `RedisService.isUserOnline` returns `true` whenever the
shared-store call does not throw — regardless of whether the userId is in
the `online:users` hash, because the `hExists` result is discarded — and
returns `false` only when the store call raises an error. -/
theorem c10_isUserOnline_ignores_hExists (online : List (String × String))
    (uid : String) :
    isUserOnline false online uid = true ∧
    isUserOnline true online uid = false :=
  ⟨rfl, rfl⟩

/-- C4 counterexample: with an empty local `userSockets` map but one user
recorded in the Presence Store, `handleConnection` emits `onlineCount 0`
(the local map size) while the Presence Store count is `1` — so the
on-connect count is not obtained from the Presence Store. -/
theorem c4_counterexample :
    (handleConnection stPresenceOnly "s9").emits
      = [Emit.toClient "s9" (OutEvent.connected "s9"),
         Emit.toClient "s9" (OutEvent.onlineCountEv 0)] ∧
    getOnlineCount false stPresenceOnly.redis.online = 1 ∧
    (0 : Nat) ≠ 1 :=
  ⟨rfl, rfl, by omega⟩

/-- C4 (amended): on a new connection, before any Join, the server emits
`connected` (carrying the connection identifier) and `onlineCount` — both
only to that connection, never broadcast — but the count is the size of
this process's local `userSockets` map, not the cluster-wide Presence
Store count. -/
theorem c4_connect_local_count (st : GWState) (cid : String) :
    (handleConnection st cid).emits
      = [Emit.toClient cid (OutEvent.connected cid),
         Emit.toClient cid (OutEvent.onlineCountEv (hLen st.userSockets))] ∧
    ((handleConnection st cid).emits.all
      (fun e => match e with
        | Emit.toClient c _ => c == cid
        | Emit.broadcast _ => false)) = true := by
  refine ⟨rfl, ?_⟩
  simp [handleConnection]

/-- C2: starting from any cache within capacity, any sequence of appends
via `addMessageToCache` (capacity 50) keeps the `messages:recent` length
at most 50, and once at least 50 messages have been appended the cache —
and a 50-element read of it — holds exactly the last 50 appended messages
in chronological order. -/
theorem c2_cache_capacity {α : Type} (c0 msgs : List α)
    (h0 : c0.length ≤ 50) :
    (msgs.foldl (fun c m => addMessageToCache m 50 c) c0).length ≤ 50 ∧
    (50 ≤ msgs.length →
      msgs.foldl (fun c m => addMessageToCache m 50 c) c0
        = msgs.drop (msgs.length - 50) ∧
      getCachedMessages false 50
        (msgs.foldl (fun c m => addMessageToCache m 50 c) c0)
        = msgs.drop (msgs.length - 50)) := by
  have hK : (50 : Nat) ≠ 0 := by omega
  have hfold := foldl_addMessageToCache 50 hK msgs c0 h0
  constructor
  · rw [hfold, length_lastN 50 _ hK]; omega
  · intro h50
    have heq : msgs.foldl (fun c m => addMessageToCache m 50 c) c0
        = msgs.drop (msgs.length - 50) := by
      rw [hfold, lastN_append_right 50 hK c0 msgs h50]
    refine ⟨heq, ?_⟩
    rw [heq]
    show lastN 50 (msgs.drop (msgs.length - 50)) = msgs.drop (msgs.length - 50)
    apply lastN_of_le
    rw [List.length_drop]
    omega

set_option maxRecDepth 8000 in
/-- C2 witness: 55 appends into an initially empty cache leave exactly the
last 50 messages, in order. -/
theorem c2_cache_capacity_witness :
    ([] : List Nat).length ≤ 50 ∧
    50 ≤ (List.range 55).length ∧
    ((List.range 55).foldl (fun c m => addMessageToCache m 50 c) []).length ≤ 50 ∧
    (List.range 55).foldl (fun c m => addMessageToCache m 50 c) []
      = (List.range 55).drop ((List.range 55).length - 50) ∧
    (List.range 55).foldl (fun c m => addMessageToCache m 50 c) []
      = List.range' 5 50 :=
  ⟨by decide, by decide,
   (c2_cache_capacity [] (List.range 55) (by decide)).1,
   ((c2_cache_capacity [] (List.range 55) (by decide)).2 (by decide)).1,
   by decide⟩

/-- C6: when a socket is mapped to a joined userId, an ungraceful
disconnect (no explicit Leave) performs exactly the same state transition
and the same `userLeft` / `onlineCount` broadcasts as an explicit Leave
for that user from that socket. -/
theorem c6_disconnect_eq_leave (st : GWState) (cid uid : String)
    (h : alGet st.socketUsers cid = some uid) :
    handleDisconnect st cid = handleLeave st cid uid := by
  unfold handleDisconnect handleLeave
  rw [h]

/-- C6 witness: in the state after `u1` joined on socket `s1`, the
disconnect of `s1` coincides with an explicit Leave of `u1`. -/
theorem c6_disconnect_eq_leave_witness :
    alGet stJoined.socketUsers "s1" = some "u1" ∧
    handleDisconnect stJoined "s1" = handleLeave stJoined "s1" "u1" :=
  ⟨by decide, c6_disconnect_eq_leave stJoined "s1" "u1" (by decide)⟩

/-- C7: Leave is idempotent — a second Leave for the same user succeeds,
leaves the local maps and the Presence Store exactly as after the first
Leave (deleting absent entries is a no-op), and broadcasts the same
OnlineCount as the first Leave did (no double decrement; the count is a
`Nat`, never below zero). -/
theorem c7_leave_idempotent (st : GWState) (cid uid : String) :
    (handleLeave (handleLeave st cid uid).state cid uid).success = true ∧
    (handleLeave (handleLeave st cid uid).state cid uid).state
      = (handleLeave st cid uid).state ∧
    (handleLeave (handleLeave st cid uid).state cid uid).emits
      = [Emit.broadcast (OutEvent.userLeft uid none),
         Emit.broadcast (OutEvent.onlineCountEv
           (getOnlineCount false (handleLeave st cid uid).state.redis.online))] := by
  refine ⟨rfl, ?_, ?_⟩
  · simp [handleLeave, removeOnlineUser, deleteUserSession, alDel_idem]
  · simp [handleLeave, removeOnlineUser, deleteUserSession, getOnlineCount,
          hLen, alDel_idem, alGet_alDel]

theorem drop_isEmpty_false {α : Type} (l : List α) (n : Nat)
    (h : n < l.length) : (l.drop n).isEmpty = false := by
  have hlen : (l.drop n).length = l.length - n := List.length_drop _ _
  cases hdrop : l.drop n with
  | nil => rw [hdrop] at hlen; simp at hlen; omega
  | cons a t => rfl

theorem getCachedMessages_false {α : Type} (L : Nat) (hL : L ≠ 0)
    (c : List α) :
    getCachedMessages false L c = c.drop (c.length - L) := by
  unfold getCachedMessages lastN
  rw [if_neg (by simp : ¬ (false = true)), if_neg hL]

/-- C1 counterexample: with a cold cache and three prior messages A, B, C
in the durable store, `GetRecentMessages{limit:2}` on the fallback path
replies `[C, B]` (newest-first), not `[B, C]`. -/
theorem c1_counterexample :
    (handleGetRecentMessages false stFallback "s1" (some 2)).emits
      = [Emit.toClient "s1" (OutEvent.recentMessages [msgC, msgB])] ∧
    [msgC, msgB] ≠ [msgB, msgC] :=
  ⟨by decide, by decide⟩

/-- C1 (amended): `getRecentMessages` replies only to the requesting
connection with at most `L` messages; on the cache-hit path the reply is
the suffix of the cache (the most recent messages, oldest first), while on
the Durable Store fallback path (cold cache) the reply is newest-first —
the reverse of chronological order. -/
theorem c1_recent_paths (st : GWState) (cid : String) (L : Nat) (hL : L ≠ 0)
    (hdb : List.Pairwise (fun a b => a.timestamp < b.timestamp) st.db) :
    (st.redis.cache ≠ [] →
      (handleGetRecentMessages false st cid (some L)).emits
        = [Emit.toClient cid (OutEvent.recentMessages
            (st.redis.cache.drop (st.redis.cache.length - L)))] ∧
      (st.redis.cache.drop (st.redis.cache.length - L)).length ≤ L) ∧
    (st.redis.cache = [] →
      (handleGetRecentMessages false st cid (some L)).emits
        = [Emit.toClient cid (OutEvent.recentMessages (st.db.reverse.take L))] ∧
      (st.db.reverse.take L).length ≤ L) := by
  have hlim : (if L = 0 then 50 else L) = L := if_neg hL
  constructor
  · intro hc
    have hcl : 0 < st.redis.cache.length := List.length_pos.mpr hc
    have hcached := getCachedMessages_false L hL st.redis.cache
    have hne : (getCachedMessages false L st.redis.cache).isEmpty = false := by
      rw [hcached]
      exact drop_isEmpty_false _ _ (by omega)
    have hne' : (st.redis.cache.drop (st.redis.cache.length - L)).isEmpty = false :=
      drop_isEmpty_false _ _ (by omega)
    constructor
    · simp only [handleGetRecentMessages, hlim, hcached, hne',
                 Bool.false_eq_true, if_false]
    · rw [List.length_drop]; omega
  · intro hc
    have hcached : getCachedMessages false L st.redis.cache = [] := by
      rw [getCachedMessages_false L hL, hc]
      simp
    have hms : msGetRecentMessages L st.db = st.db.reverse.take L := by
      unfold msGetRecentMessages
      rw [if_neg hL, sortDescByTs_of_chron st.db hdb]
    constructor
    · simp only [handleGetRecentMessages, hlim, hcached, List.isEmpty_nil,
                 if_true, hms]
    · rw [List.length_take]; omega

/-- C1 witness: with the cache holding A, B, C, a limit-2 request on the
cache-hit path replies `[B, C]` — the two most recent, oldest first. -/
theorem c1_recent_paths_witness :
    (2 : Nat) ≠ 0 ∧
    List.Pairwise (fun a b => a.timestamp < b.timestamp) stCacheHit.db ∧
    ((stCacheHit.redis.cache ≠ [] →
      (handleGetRecentMessages false stCacheHit "s1" (some 2)).emits
        = [Emit.toClient "s1" (OutEvent.recentMessages
            (stCacheHit.redis.cache.drop (stCacheHit.redis.cache.length - 2)))] ∧
      (stCacheHit.redis.cache.drop (stCacheHit.redis.cache.length - 2)).length ≤ 2) ∧
    (stCacheHit.redis.cache = [] →
      (handleGetRecentMessages false stCacheHit "s1" (some 2)).emits
        = [Emit.toClient "s1" (OutEvent.recentMessages (stCacheHit.db.reverse.take 2))] ∧
      (stCacheHit.db.reverse.take 2).length ≤ 2)) ∧
    stCacheHit.redis.cache.drop (stCacheHit.redis.cache.length - 2) = [msgB, msgC] :=
  ⟨by decide, by simp [stCacheHit, emptySt],
   c1_recent_paths stCacheHit "s1" 2 (by decide) (by simp [stCacheHit, emptySt]),
   by decide⟩

theorem sendMessage_preserves_sessions (st : GWState) (cid uid text nid : String)
    (pf : Bool) (now : Nat) :
    (handleSendMessage st cid uid text pf nid now).state.redis.sessions
      = st.redis.sessions := by
  unfold handleSendMessage
  split
  · rfl
  · rcases hfl : alGet st.connectedUsers uid with _ | u
    · rcases hgs : getUserSession st.redis.sessions uid with _ | v
      · simp only [hfl, hgs]
      · simp only [hfl, hgs]
        split <;> rfl
    · simp only [hfl]
      split <;> rfl

/-- C3 counterexample: `setUserSession`'s TTL default is 3600 seconds (one
hour), not two hours; and inbound activity does not refresh the session
TTL — after `u1` joins (session written with TTL 7200), a sendMessage from
`u1` leaves the stored sessions, including the TTL, exactly unchanged. -/
theorem c3_counterexample :
    setUserSessionDefaultTtl = 3600 ∧
    setUserSessionDefaultTtl ≠ 7200 ∧
    alGet stJoined.redis.sessions "u1"
      = some { data := { userId := "u1", username := "ann", mongoId := some "m1",
                         socketId := "s1", connectedAt := 0 }, ttl := 7200 } ∧
    (handleSendMessage stJoined "s1" "u1" "hi" false "d1" 5).state.redis.sessions
      = stJoined.redis.sessions :=
  ⟨rfl, by decide, by decide,
   sendMessage_preserves_sessions stJoined "s1" "u1" "hi" "d1" false 5⟩

/-- C3 (amended): the Join-time session write carries an explicit
7200-second (2-hour) TTL — though `setUserSession`'s own parameter default
is 3600 seconds — and the TTL is not refreshed on inbound activity: a
sendMessage leaves the stored sessions untouched (`refreshUserSession`
exists but has no call site). -/
theorem c3_session_ttl (st : GWState) (cid uid uname dbId : String)
    (dbFail : Bool) (now : Nat) (st2 : GWState)
    (cid2 uid2 text nid : String) (pf : Bool) (now2 : Nat)
    (h1 : uid ≠ "") (h2 : uname ≠ "") :
    alGet (handleJoin st cid uid uname dbFail dbId now).state.redis.sessions uid
      = some { data := { userId := uid, username := uname,
                         mongoId := if dbFail then none else some dbId,
                         socketId := cid, connectedAt := now }, ttl := 7200 } ∧
    (handleSendMessage st2 cid2 uid2 text pf nid now2).state.redis.sessions
      = st2.redis.sessions := by
  have hv : (uid == "" || uname == "") = false := by simp [h1, h2]
  constructor
  · simp only [handleJoin, hv, Bool.false_eq_true, if_false]
    exact alGet_alSet_self _ _ _
  · exact sendMessage_preserves_sessions st2 cid2 uid2 text nid pf now2

/-- C3 witness: instantiation of the amended session-TTL theorem at the
fixture join/sendMessage inputs. -/
theorem c3_session_ttl_witness :
    ("u1" : String) ≠ "" ∧ ("ann" : String) ≠ "" ∧
    (alGet (handleJoin emptySt "s1" "u1" "ann" false "m1" 0).state.redis.sessions "u1"
      = some { data := { userId := "u1", username := "ann", mongoId := some "m1",
                         socketId := "s1", connectedAt := 0 }, ttl := 7200 } ∧
    (handleSendMessage emptySt "s1" "u1" "hi" false "d1" 5).state.redis.sessions
      = emptySt.redis.sessions) :=
  ⟨by decide, by decide,
   c3_session_ttl emptySt "s1" "u1" "ann" "m1" false 0 emptySt "s1" "u1" "hi" "d1"
     false 5 (by decide) (by decide)⟩

/-- C5 counterexample: in the primary gateway, a persistence failure on
sendMessage from joined user `u1` yields an `error` event to the sender
and no broadcast at all — the message is not broadcast with a provisional
identifier. -/
theorem c5_counterexample :
    (handleSendMessage stJoined "s1" "u1" "hi" true "x" 9).success = false ∧
    (handleSendMessage stJoined "s1" "u1" "hi" true "x" 9).emits
      = [Emit.toClient "s1" (OutEvent.errorEv "Failed to send message")] ∧
    ((handleSendMessage stJoined "s1" "u1" "hi" true "x" 9).emits.all
      (fun e => match e with
        | Emit.broadcast _ => false
        | Emit.toClient _ _ => true)) = true :=
  ⟨by decide, by decide, by decide⟩

/-- C5 (amended): only the variant gateway broadcasts on persistence
failure — there the message goes out as `newMessage` with the provisional
`temp_` identifier and the handler succeeds; the primary gateway instead
aborts with an `error` event to the sender and broadcasts nothing. -/
theorem c5_persist_failure_paths (st : GWState) (cid uid text nid : String)
    (now : Nat) (u : UserInfo) (mid : String)
    (h1 : uid ≠ "") (h2 : text ≠ "")
    (hu : alGet st.connectedUsers uid = some u) (hm : u.mongoId = some mid) :
    (handleSendMessageVariant st cid uid text true nid now).emits
      = [Emit.broadcast (OutEvent.newMessageV
          { vid := MsgId.provisional now, userId := uid,
            username := u.username, text := text, timestamp := now })] ∧
    (handleSendMessageVariant st cid uid text true nid now).success = true ∧
    (handleSendMessage st cid uid text true nid now).success = false ∧
    ((handleSendMessage st cid uid text true nid now).emits.all
      (fun e => match e with
        | Emit.broadcast _ => false
        | Emit.toClient _ _ => true)) = true := by
  have hv : (uid == "" || text == "") = false := by simp [h1, h2]
  refine ⟨?_, ?_, ?_, ?_⟩
  · simp only [handleSendMessageVariant, hv, Bool.false_eq_true, if_false,
               if_true, hu, hm]
  · simp only [handleSendMessageVariant, hv, Bool.false_eq_true, if_false,
               if_true, hu, hm]
  · simp only [handleSendMessage, hv, Bool.false_eq_true, if_false,
               if_true, hu]
  · simp only [handleSendMessage, hv, Bool.false_eq_true, if_false,
               if_true, hu]
    rfl

/-- C5 witness: instantiation of the persistence-failure theorem in the
joined fixture state. -/
theorem c5_persist_failure_paths_witness :
    ("u1" : String) ≠ "" ∧ ("hi" : String) ≠ "" ∧
    alGet stJoined.connectedUsers "u1"
      = some { userId := "u1", username := "ann", mongoId := some "m1",
               socketId := "s1", connectedAt := 0 } ∧
    (UserInfo.mongoId { userId := "u1", username := "ann", mongoId := some "m1",
                        socketId := "s1", connectedAt := 0 }) = some "m1" ∧
    ((handleSendMessageVariant stJoined "s1" "u1" "hi" true "x" 9).emits
      = [Emit.broadcast (OutEvent.newMessageV
          { vid := MsgId.provisional 9, userId := "u1",
            username := "ann", text := "hi", timestamp := 9 })] ∧
    (handleSendMessageVariant stJoined "s1" "u1" "hi" true "x" 9).success = true ∧
    (handleSendMessage stJoined "s1" "u1" "hi" true "x" 9).success = false ∧
    ((handleSendMessage stJoined "s1" "u1" "hi" true "x" 9).emits.all
      (fun e => match e with
        | Emit.broadcast _ => false
        | Emit.toClient _ _ => true)) = true) :=
  ⟨by decide, by decide, by decide, by decide,
   c5_persist_failure_paths stJoined "s1" "u1" "hi" "x" 9
     { userId := "u1", username := "ann", mongoId := some "m1",
       socketId := "s1", connectedAt := 0 } "m1"
     (by decide) (by decide) (by decide) (by decide)⟩

/-- C8: with non-empty userId and username, a join whose durable-store
find-or-create fails (`dbFail = true`) still succeeds: the local maps, the
Presence Store entry and the 7200-second session are all written, and
`userJoined`, `joinSuccess` (to the joining client) and the refreshed
`onlineCount` are all emitted. -/
theorem c8_join_survives_db_failure (st : GWState) (cid uid uname : String)
    (now : Nat) (h1 : uid ≠ "") (h2 : uname ≠ "") :
    (handleJoin st cid uid uname true "" now).success = true ∧
    alGet (handleJoin st cid uid uname true "" now).state.userSockets uid
      = some cid ∧
    alGet (handleJoin st cid uid uname true "" now).state.socketUsers cid
      = some uid ∧
    alGet (handleJoin st cid uid uname true "" now).state.connectedUsers uid
      = some { userId := uid, username := uname, mongoId := none,
               socketId := cid, connectedAt := now } ∧
    alGet (handleJoin st cid uid uname true "" now).state.redis.online uid
      = some cid ∧
    alGet (handleJoin st cid uid uname true "" now).state.redis.sessions uid
      = some { data := { userId := uid, username := uname, mongoId := none,
                         socketId := cid, connectedAt := now }, ttl := 7200 } ∧
    (handleJoin st cid uid uname true "" now).emits
      = [Emit.broadcast (OutEvent.userJoined uid uname),
         Emit.toClient cid (OutEvent.joinSuccess
           { userId := uid, username := uname, mongoId := none,
             socketId := cid, connectedAt := now }),
         Emit.broadcast (OutEvent.onlineCountEv
           (hLen (addOnlineUser st.redis.online uid cid)))] := by
  have hv : (uid == "" || uname == "") = false := by simp [h1, h2]
  refine ⟨?_, ?_, ?_, ?_, ?_, ?_, ?_⟩ <;>
    simp only [handleJoin, hv, Bool.false_eq_true, if_false] <;>
    first
      | rfl
      | exact alGet_alSet_self _ _ _

/-- C8 witness: instantiation of the degraded-join theorem from the empty
state. -/
theorem c8_join_survives_db_failure_witness :
    ("u1" : String) ≠ "" ∧ ("ann" : String) ≠ "" ∧
    ((handleJoin emptySt "s1" "u1" "ann" true "" 0).success = true ∧
    alGet (handleJoin emptySt "s1" "u1" "ann" true "" 0).state.userSockets "u1"
      = some "s1" ∧
    alGet (handleJoin emptySt "s1" "u1" "ann" true "" 0).state.socketUsers "s1"
      = some "u1" ∧
    alGet (handleJoin emptySt "s1" "u1" "ann" true "" 0).state.connectedUsers "u1"
      = some { userId := "u1", username := "ann", mongoId := none,
               socketId := "s1", connectedAt := 0 } ∧
    alGet (handleJoin emptySt "s1" "u1" "ann" true "" 0).state.redis.online "u1"
      = some "s1" ∧
    alGet (handleJoin emptySt "s1" "u1" "ann" true "" 0).state.redis.sessions "u1"
      = some { data := { userId := "u1", username := "ann", mongoId := none,
                         socketId := "s1", connectedAt := 0 }, ttl := 7200 } ∧
    (handleJoin emptySt "s1" "u1" "ann" true "" 0).emits
      = [Emit.broadcast (OutEvent.userJoined "u1" "ann"),
         Emit.toClient "s1" (OutEvent.joinSuccess
           { userId := "u1", username := "ann", mongoId := none,
             socketId := "s1", connectedAt := 0 }),
         Emit.broadcast (OutEvent.onlineCountEv
           (hLen (addOnlineUser emptySt.redis.online "u1" "s1")))]) :=
  ⟨by decide, by decide,
   c8_join_survives_db_failure emptySt "s1" "u1" "ann" 0 (by decide) (by decide)⟩

/-- C9 counterexample: a read of the empty (never-warmed) cache returns
the plain empty list — the very "empty-but-valid" value, and the same
value the error path returns — so no distinguishable cache-miss signal
exists. -/
theorem c9_counterexample :
    getCachedMessages false 50 ([] : List ChatMsg) = [] ∧
    getCachedMessages true 50 [msgA] = [] :=
  ⟨rfl, rfl⟩

/-- C9 (amended): whenever the cache read comes back empty (cold cache or
store error alike — there is no distinct miss signal), the caller treats
it as a miss: it fetches the messages from the Durable Store, replies with
them, and best-effort repopulates the cache exactly when the fetch is
non-empty. -/
theorem c9_cache_miss_fallback (cacheErr : Bool) (st : GWState) (cid : String)
    (L : Nat) (hL : L ≠ 0)
    (hmiss : getCachedMessages cacheErr L st.redis.cache = []) :
    (handleGetRecentMessages cacheErr st cid (some L)).emits
      = [Emit.toClient cid (OutEvent.recentMessages (msGetRecentMessages L st.db))] ∧
    (handleGetRecentMessages cacheErr st cid (some L)).state.redis.cache
      = (if 0 < (msGetRecentMessages L st.db).length
         then lastN L (msGetRecentMessages L st.db)
         else st.redis.cache) := by
  have hlim : (if L = 0 then 50 else L) = L := if_neg hL
  constructor
  · simp only [handleGetRecentMessages, hlim, hmiss, List.isEmpty_nil, if_true]
  · simp only [handleGetRecentMessages, hlim, hmiss, List.isEmpty_nil, if_true]
    split <;> rfl

/-- C9 witness: instantiation of the fallback theorem with a cold cache
and one durable message. -/
theorem c9_cache_miss_fallback_witness :
    (2 : Nat) ≠ 0 ∧
    getCachedMessages false 2 stDbOnly.redis.cache = [] ∧
    ((handleGetRecentMessages false stDbOnly "s1" (some 2)).emits
      = [Emit.toClient "s1" (OutEvent.recentMessages (msGetRecentMessages 2 stDbOnly.db))] ∧
    (handleGetRecentMessages false stDbOnly "s1" (some 2)).state.redis.cache
      = (if 0 < (msGetRecentMessages 2 stDbOnly.db).length
         then lastN 2 (msGetRecentMessages 2 stDbOnly.db)
         else stDbOnly.redis.cache)) :=
  ⟨by decide, by decide,
   c9_cache_miss_fallback false stDbOnly "s1" 2 (by decide) (by decide)⟩
